import Mathlib

/-!
# StochasticTargetProportionBasedCellCycleModel

A shallow embedding of `src/CellCycles/StochasticTargetProportionBasedCellCycleModel.cpp`
(Chaste project CryptFissionPlos2016) and the properties proved about it.

## Numbers

The C++ `double` is IEEE-754 binary64.  Every finite binary64 value is an
integer multiple of the least subnormal `2^-1074`, so a finite value is stored
as that integer (`Double.finite n` stands for `n * 2^-1074`).  The two signed
zeros are identified and so are all NaN payloads; nothing in the source file
distinguishes them.  Arithmetic is round-to-nearest, ties-to-even, the default
rounding mode.
-/

namespace Chaste

/-! ## binary64 -/

/-- An IEEE-754 binary64 value: `finite n` is the value `n * 2^-1074`. -/
inductive Double where
  | finite (n : Int)
  | posInf
  | negInf
  | nan
  deriving DecidableEq, Repr

/-- The largest finite binary64 magnitude, `(2^53 - 1) * 2^971`, counted in
units of `2^-1074`. -/
def maxFinite : Nat := (2 ^ 53 - 1) * 2 ^ 2045

/-- The number of low bits of `a` that do not fit a 53-bit significand: the
least `k` with `a / 2^k < 2^53`, found by halving (the first argument bounds
the number of halvings and is taken to be `a` itself). -/
def excessBits : Nat → Nat → Nat
  | 0, _ => 0
  | fuel + 1, a => if a < 2 ^ 53 then 0 else excessBits fuel (a / 2) + 1

/-- Round `a` to a multiple of `2^k`, to nearest, ties to even: the kept
part `q` is incremented when the dropped part `r` is above the half, or equal
to the half with `q` odd. -/
def roundAt (k a : Nat) : Nat :=
  let q := a / 2 ^ k
  let r := a % 2 ^ k
  if 2 * r < 2 ^ k then q * 2 ^ k
  else if 2 ^ k < 2 * r then (q + 1) * 2 ^ k
  else if q % 2 = 0 then q * 2 ^ k
  else (q + 1) * 2 ^ k

/-- Round a natural number to 53 significant bits, to nearest, ties to even. -/
def roundNat (a : Nat) : Nat := roundAt (excessBits a a) a

namespace Double

/-- The binary64 value nearest to the exact value `z * 2^-1074`; a magnitude
that rounds above `maxFinite` overflows to the infinity of its sign. -/
def ofInt (z : Int) : Double :=
  let a := roundNat z.natAbs
  if maxFinite < a then (if z < 0 then negInf else posInf)
  else finite (if z < 0 then -(a : Int) else (a : Int))

/-- A value of the embedding that is a genuine binary64 value: a finite one
is its own rounding. -/
def IsValid : Double → Prop
  | finite n => ofInt n = finite n
  | _ => True

instance (d : Double) : Decidable (IsValid d) := by
  cases d <;> unfold IsValid <;> infer_instance

/-- The value is finite (neither an infinity nor NaN). -/
def isFinite : Double → Bool
  | finite _ => true
  | _ => false

/-- IEEE `<`: false as soon as one side is NaN. -/
def lt : Double → Double → Bool
  | nan, _ => false
  | _, nan => false
  | finite a, finite b => decide (a < b)
  | finite _, posInf => true
  | finite _, negInf => false
  | posInf, _ => false
  | negInf, negInf => false
  | negInf, _ => true

/-- IEEE `<=`: false as soon as one side is NaN. -/
def le : Double → Double → Bool
  | nan, _ => false
  | _, nan => false
  | finite a, finite b => decide (a ≤ b)
  | finite _, posInf => true
  | finite _, negInf => false
  | posInf, posInf => true
  | posInf, _ => false
  | negInf, _ => true

/-- IEEE addition, round to nearest even. -/
def add : Double → Double → Double
  | nan, _ => nan
  | _, nan => nan
  | posInf, negInf => nan
  | negInf, posInf => nan
  | posInf, _ => posInf
  | _, posInf => posInf
  | negInf, _ => negInf
  | _, negInf => negInf
  | finite a, finite b => ofInt (a + b)

/-- IEEE product `2 * x` (the `int` literal `2` is converted to `2.0`): the
exact product is again a multiple of `2^-1074`, which is then rounded. -/
def twice : Double → Double
  | finite a => ofInt (2 * a)
  | d => d

/-- The value `m * 2^e` of a binary64 with integer significand `m` and
exponent `e >= -1074`. -/
def ofScaled (m : Int) (e : Int) : Double := finite (m * 2 ^ (e + 1074).toNat)

/-- The number of units `2^-1074` that make up `1.0`. -/
def unitsPerOne : Nat := 2 ^ 1074

/-- The double `0.0`. -/
def zero : Double := finite 0
/-- The double `1.0`. -/
def one : Double := finite unitsPerOne
/-- The double `2.0`. -/
def two : Double := finite (2 * unitsPerOne)

end Double

/-- The constant `DBL_MAX` of `<cfloat>`: the largest finite binary64 value. -/
def DBL_MAX : Double := Double.finite maxFinite

/-! ## Cells and the random source -/

/-- The proliferative-type property of a cell.  The three classes the source
file names, and `Other` for every further subclass of the (open) class
hierarchy, told apart by an identifier. -/
inductive CellProliferativeType where
  | StemCellProliferativeType
  | TransitCellProliferativeType
  | DifferentiatedCellProliferativeType
  | Other (id : Nat)
  deriving DecidableEq, Repr

/-- The mutation-state property of a cell: the two classes the source file
names, and `Other` for every further mutation state. -/
inductive CellMutationState where
  | WildTypeCellMutationState
  | PanethCellMutationState
  | Other (id : Nat)
  deriving DecidableEq, Repr

/-- The run-time class test `IsType<T>()` on a proliferative type. -/
def CellProliferativeType.IsType (t T : CellProliferativeType) : Bool := decide (t = T)

/-- The owning cell `mpCell`, reduced to the two tags the model reads and
writes. -/
structure Cell where
  mCellProliferativeType : CellProliferativeType
  mMutationState : CellMutationState
  deriving DecidableEq, Repr

namespace Cell

/-- The accessor `Cell::GetCellProliferativeType`. -/
def GetCellProliferativeType (c : Cell) : CellProliferativeType := c.mCellProliferativeType

/-- The mutator `Cell::SetCellProliferativeType`. -/
def SetCellProliferativeType (c : Cell) (t : CellProliferativeType) : Cell :=
  { c with mCellProliferativeType := t }

/-- The mutator `Cell::SetMutationState`. -/
def SetMutationState (c : Cell) (s : CellMutationState) : Cell :=
  { c with mMutationState := s }

end Cell

/-- The process-wide random source `RandomNumberGenerator::Instance()`, as an
explicit stream: `seq i` is the value of the `i`-th call of `ranf()` and
`pos` counts the calls made so far. -/
structure RandomNumberGenerator where
  seq : Nat → Double
  pos : Nat

/-- One call of `ranf()`: the next value of the stream, and the advanced
source. -/
def RandomNumberGenerator.ranf (g : RandomNumberGenerator) : Double × RandomNumberGenerator :=
  (g.seq g.pos, { g with pos := g.pos + 1 })

/-! ## The cell-cycle model -/

/-- Modelled from the spec: the member variables of the generic base class
`AbstractSimpleCellCycleModel`, whose declaration is not part of the source
file.  These are the fields of the spec's data model, under the names the
source file uses for them; `mDimension` is optional and `none` when unset. -/
structure AbstractSimpleCellCycleModel where
  mBirthTime : Double
  mMinimumGapDuration : Double
  mStemCellG1Duration : Double
  mTransitCellG1Duration : Double
  mSDuration : Double
  mG2Duration : Double
  mMDuration : Double
  mG1Duration : Double
  mDimension : Option Nat
  deriving DecidableEq, Repr

/-- The class of the source file: the base members and `mTargetProportion`. -/
structure StochasticTargetProportionBasedCellCycleModel extends AbstractSimpleCellCycleModel where
  mTargetProportion : Double
  deriving DecidableEq, Repr

namespace StochasticTargetProportionBasedCellCycleModel

/-- The constructor (source lines 44-48): the base-class constructor runs
first, then `mTargetProportion(DOUBLE_UNSET)`.  The state `base` the base
constructor leaves and the constant `DOUBLE_UNSET` are declared outside the
source file and are taken as parameters. -/
def new (base : AbstractSimpleCellCycleModel) (DOUBLE_UNSET : Double) :
    StochasticTargetProportionBasedCellCycleModel :=
  { toAbstractSimpleCellCycleModel := base, mTargetProportion := DOUBLE_UNSET }

/-- Source lines 54-57. -/
def SetTargetProportion (self : StochasticTargetProportionBasedCellCycleModel)
    (targetProportion : Double) : StochasticTargetProportionBasedCellCycleModel :=
  { self with mTargetProportion := targetProportion }

/-- Source lines 59-62. -/
def GetTargetProportion (self : StochasticTargetProportionBasedCellCycleModel) : Double :=
  self.mTargetProportion

/-- Modelled from the spec: the base-class setter `SetBirthTime`, a plain
accessor that accepts any value. -/
def SetBirthTime (self : StochasticTargetProportionBasedCellCycleModel) (v : Double) :
    StochasticTargetProportionBasedCellCycleModel := { self with mBirthTime := v }

/-- Modelled from the spec: the base-class setter `SetMinimumGapDuration`, a
plain accessor that accepts any value. -/
def SetMinimumGapDuration (self : StochasticTargetProportionBasedCellCycleModel) (v : Double) :
    StochasticTargetProportionBasedCellCycleModel := { self with mMinimumGapDuration := v }

/-- Modelled from the spec: the base-class setter `SetStemCellG1Duration`, a
plain accessor that accepts any value. -/
def SetStemCellG1Duration (self : StochasticTargetProportionBasedCellCycleModel) (v : Double) :
    StochasticTargetProportionBasedCellCycleModel := { self with mStemCellG1Duration := v }

/-- Modelled from the spec: the base-class setter `SetTransitCellG1Duration`,
a plain accessor that accepts any value. -/
def SetTransitCellG1Duration (self : StochasticTargetProportionBasedCellCycleModel) (v : Double) :
    StochasticTargetProportionBasedCellCycleModel := { self with mTransitCellG1Duration := v }

/-- Modelled from the spec: the base-class setter `SetSDuration`, a plain
accessor that accepts any value. -/
def SetSDuration (self : StochasticTargetProportionBasedCellCycleModel) (v : Double) :
    StochasticTargetProportionBasedCellCycleModel := { self with mSDuration := v }

/-- Modelled from the spec: the base-class setter `SetG2Duration`, a plain
accessor that accepts any value. -/
def SetG2Duration (self : StochasticTargetProportionBasedCellCycleModel) (v : Double) :
    StochasticTargetProportionBasedCellCycleModel := { self with mG2Duration := v }

/-- Modelled from the spec: the base-class setter `SetMDuration`, a plain
accessor that accepts any value. -/
def SetMDuration (self : StochasticTargetProportionBasedCellCycleModel) (v : Double) :
    StochasticTargetProportionBasedCellCycleModel := { self with mMDuration := v }

/-- Modelled from the spec: the base-class getter `GetStemCellG1Duration`, a
plain accessor. -/
def GetStemCellG1Duration (self : StochasticTargetProportionBasedCellCycleModel) : Double :=
  self.mStemCellG1Duration

/-- Modelled from the spec: the base-class getter `GetTransitCellG1Duration`,
a plain accessor. -/
def GetTransitCellG1Duration (self : StochasticTargetProportionBasedCellCycleModel) : Double :=
  self.mTransitCellG1Duration

/-- Source lines 64-96: a new model is constructed and eight members are
copied into it through the setters, in the order of the source. -/
def CreateCellCycleModel (base : AbstractSimpleCellCycleModel) (DOUBLE_UNSET : Double)
    (self : StochasticTargetProportionBasedCellCycleModel) :
    StochasticTargetProportionBasedCellCycleModel :=
  let p_model := new base DOUBLE_UNSET
  let p_model := p_model.SetBirthTime self.mBirthTime
  let p_model := p_model.SetMinimumGapDuration self.mMinimumGapDuration
  let p_model := p_model.SetStemCellG1Duration self.mStemCellG1Duration
  let p_model := p_model.SetTransitCellG1Duration self.mTransitCellG1Duration
  let p_model := p_model.SetSDuration self.mSDuration
  let p_model := p_model.SetG2Duration self.mG2Duration
  let p_model := p_model.SetMDuration self.mMDuration
  let p_model := p_model.SetTargetProportion self.mTargetProportion
  p_model

end StochasticTargetProportionBasedCellCycleModel

/-- What the member functions act on: the model, the cell `mpCell` it belongs
to, and the shared random source. -/
structure State where
  model : StochasticTargetProportionBasedCellCycleModel
  cell : Cell
  rng : RandomNumberGenerator

/-- An abort of the process: the diagnostic, and the state at the moment of
the abort. -/
structure Abort where
  message : String
  state : State

open CellProliferativeType CellMutationState

/-- Modelled from the spec: the macro `NEVER_REACHED` of `Exception.hpp`, which
is not part of the source file.  Reaching it is a fatal invariant violation
that halts with a diagnostic. -/
def NEVER_REACHED (w : State) : Except Abort State :=
  Except.error { message := "Should have been impossible to reach this line of code", state := w }

/-- Source lines 98-120. -/
def SetG1Duration (w : State) : Except Abort State :=
  let p_gen := w.rng
  if w.cell.GetCellProliferativeType.IsType StemCellProliferativeType then
    let (u, p_gen) := p_gen.ranf
    Except.ok { w with
      model := { w.model with
        mG1Duration := Double.add w.model.GetStemCellG1Duration (Double.twice u) },
      rng := p_gen }
  else if w.cell.GetCellProliferativeType.IsType TransitCellProliferativeType then
    let (u, p_gen) := p_gen.ranf
    Except.ok { w with
      model := { w.model with
        mG1Duration := Double.add w.model.GetTransitCellG1Duration (Double.twice u) },
      rng := p_gen }
  else if w.cell.GetCellProliferativeType.IsType DifferentiatedCellProliferativeType then
    Except.ok { w with model := { w.model with mG1Duration := DBL_MAX } }
  else
    NEVER_REACHED w

/-- The G1 duration the model holds after a call that returned; `none` for a
call that aborted. -/
def g1Of : Except Abort State → Option Double
  | Except.ok w => some w.model.mG1Duration
  | Except.error _ => none

/-- Modelled from the spec: the base hook
`AbstractSimpleCellCycleModel::InitialiseDaughterCell`, which is not part of
the source file.  The spec leaves it out of scope as generic daughter setup
(such as resetting timers): it acts on the generic members of the model, by
an unspecified function `setup`, and on nothing else. -/
def AbstractSimpleCellCycleModel.InitialiseDaughterCell
    (setup : AbstractSimpleCellCycleModel → AbstractSimpleCellCycleModel) (w : State) : State :=
  { w with model := { w.model with
      toAbstractSimpleCellCycleModel := setup w.model.toAbstractSimpleCellCycleModel } }

/-- Source lines 122-156.  The registry lookups `Get<T>()` yield the shared
property object of class `T`, here the tag itself. -/
def InitialiseDaughterCell
    (setup : AbstractSimpleCellCycleModel → AbstractSimpleCellCycleModel) (w : State) : State :=
  let target_proportion := w.model.GetTargetProportion
  let (uniform_random_number, p_gen) := w.rng.ranf
  let p_transit_type := TransitCellProliferativeType
  let cell := w.cell.SetCellProliferativeType p_transit_type
  let cell :=
    if Double.lt uniform_random_number target_proportion then
      let p_wildtype_state := WildTypeCellMutationState
      cell.SetMutationState p_wildtype_state
    else
      let p_paneth_state := PanethCellMutationState
      cell.SetMutationState p_paneth_state
  AbstractSimpleCellCycleModel.InitialiseDaughterCell setup { w with cell := cell, rng := p_gen }

/-- The daughters of successive divisions, initialised one after the other
on the shared random source: each daughter has its own model and cell, and
the source is handed from one call to the next. -/
def initialiseDaughters
    (setup : AbstractSimpleCellCycleModel → AbstractSimpleCellCycleModel) :
    List (StochasticTargetProportionBasedCellCycleModel × Cell) → RandomNumberGenerator →
      List (StochasticTargetProportionBasedCellCycleModel × Cell) × RandomNumberGenerator
  | [], g => ([], g)
  | (m, c) :: rest, g =>
    let w := InitialiseDaughterCell setup { model := m, cell := c, rng := g }
    let out := initialiseDaughters setup rest w.rng
    ((w.model, w.cell) :: out.1, out.2)

/-- Modelled from the spec: an output stream `out_stream`, as the text
appended to it so far. -/
abbrev OutStream := String

/-- Source lines 158-165.  The text `operator<<` produces for a `double`
depends on the formatting state of the stream and is the parameter
`format`; the base routine `AbstractSimpleCellCycleModel::
OutputCellCycleModelParameters` is not part of the source file, and the text
it appends for a model is the parameter `baseOutput`. -/
def OutputCellCycleModelParameters (format : Double → String)
    (baseOutput : AbstractSimpleCellCycleModel → String)
    (self : StochasticTargetProportionBasedCellCycleModel) (rParamsFile : OutStream) : OutStream :=
  let rParamsFile :=
    rParamsFile ++ "\t\t\t<TargetProportion>" ++ format self.mTargetProportion
      ++ "</TargetProportion>\n"
  rParamsFile ++ baseOutput self.toAbstractSimpleCellCycleModel

/-! ## Calls seen from the whole state

The accessors and the cloning routine act on the model alone.  Placed in a
state (model, owning cell, random source) they show what a call leaves as
it is. -/

/-- A call of `SetTargetProportion` (source lines 54-57) in a state: the one
assignment is to `mTargetProportion`; the cell and the random source are not
referred to. -/
def State.SetTargetProportion (w : State) (targetProportion : Double) : State :=
  { w with model := w.model.SetTargetProportion targetProportion }

/-- A call of `GetTargetProportion` (source lines 59-62) in a state: the body
is the single `return`, so the state is handed on as it is. -/
def State.GetTargetProportion (w : State) : Double × State :=
  (w.model.GetTargetProportion, w)

/-- A call of `CreateCellCycleModel` (source lines 64-96) in a state: the body
reads members of the parent and calls setters of the new model only; it makes
no call on the random source and assigns to no member of the parent or of its
cell, so the state is handed on as it is. -/
def State.CreateCellCycleModel (base : AbstractSimpleCellCycleModel) (DOUBLE_UNSET : Double)
    (w : State) : StochasticTargetProportionBasedCellCycleModel × State :=
  (w.model.CreateCellCycleModel base DOUBLE_UNSET, w)

/-! ## Concrete values used in the examples -/

/-- The double written `0.1`: `0x1.999999999999ap-4`. -/
def d0_1 : Double := Double.ofScaled 3602879701896397 (-55)
/-- The double written `0.3`: `0x1.3333333333333p-2`. -/
def d0_3 : Double := Double.ofScaled 5404319552844595 (-54)
/-- The double written `0.42`: `0x1.ae147ae147ae1p-2`. -/
def d0_42 : Double := Double.ofScaled 7566047373982433 (-54)
/-- The double written `0.5`. -/
def d0_5 : Double := Double.ofScaled 1 (-1)
/-- The double written `0.9`: `0x1.ccccccccccccdp-1`. -/
def d0_9 : Double := Double.ofScaled 8106479329266893 (-53)
/-- The largest double below `1.0`: `1 - 2^-53`. -/
def dPredOne : Double := Double.ofScaled (2 ^ 53 - 1) (-53)
/-- The double `0.75`. -/
def d0_75 : Double := Double.ofScaled 3 (-2)
/-- The double `2^53`, from which on consecutive doubles are 2 apart. -/
def dTwoPow53 : Double := Double.ofScaled 1 53
/-- The double `3.0`. -/
def d3 : Double := Double.ofScaled 3 0

/-- A configured model: birth time 0, gap 0.5, stem G1 1, transit G1 2,
S, G2 and M of 1, G1 duration and dimension as given, target proportion `p`. -/
def sampleModel (g1 : Double) (dim : Option Nat) (p : Double) :
    StochasticTargetProportionBasedCellCycleModel :=
  { mBirthTime := Double.zero, mMinimumGapDuration := d0_5, mStemCellG1Duration := Double.one,
    mTransitCellG1Duration := Double.two, mSDuration := Double.one, mG2Duration := Double.one,
    mMDuration := Double.one, mG1Duration := g1, mDimension := dim, mTargetProportion := p }

/-- A cell with the given proliferative type, in the wild-type state. -/
def sampleCell (t : CellProliferativeType) : Cell :=
  { mCellProliferativeType := t, mMutationState := CellMutationState.WildTypeCellMutationState }

/-- A random source that returns `xs` in order (and `0.0` afterwards), none
of it consumed yet. -/
def streamOf (xs : List Double) : RandomNumberGenerator :=
  { seq := fun i => xs.getD i Double.zero, pos := 0 }

/-! ## Daughter initialisation -/

section InitialiseDaughterCell

open CellProliferativeType CellMutationState StochasticTargetProportionBasedCellCycleModel

variable (setup : AbstractSimpleCellCycleModel → AbstractSimpleCellCycleModel)

theorem Double.lt_irrefl (x : Double) : Double.lt x x = false := by
  cases x <;> simp [Double.lt]

theorem InitialiseDaughterCell_cell (w : State) :
    (InitialiseDaughterCell setup w).cell =
      { mCellProliferativeType := TransitCellProliferativeType,
        mMutationState :=
          if Double.lt (w.rng.seq w.rng.pos) w.model.mTargetProportion then
            WildTypeCellMutationState
          else PanethCellMutationState } := by
  unfold InitialiseDaughterCell AbstractSimpleCellCycleModel.InitialiseDaughterCell
  simp only [RandomNumberGenerator.ranf, GetTargetProportion, Cell.SetMutationState,
    Cell.SetCellProliferativeType]
  split <;> rfl

theorem InitialiseDaughterCell_rng (w : State) :
    (InitialiseDaughterCell setup w).rng = { seq := w.rng.seq, pos := w.rng.pos + 1 } := by
  rfl

/-- C1: whatever the configured target proportion `p`, the draw `r` (the next
value `g.seq g.pos` of the random source) and the prior tags of the owning
cell `c`, after `InitialiseDaughterCell` the mutation state of the cell is
WildType if `r < p` and PanethCellMutation otherwise; with `r = p` it is
PanethCellMutation. -/
theorem C1_InitialiseDaughterCell_mutation_state
    (m : StochasticTargetProportionBasedCellCycleModel) (c : Cell) (g : RandomNumberGenerator)
    (p : Double) :
    (InitialiseDaughterCell setup
        { model := m.SetTargetProportion p, cell := c, rng := g }).cell.mMutationState =
      (if Double.lt (g.seq g.pos) p then WildTypeCellMutationState
        else PanethCellMutationState) ∧
    (InitialiseDaughterCell setup
        { model := m.SetTargetProportion (g.seq g.pos), cell := c,
          rng := g }).cell.mMutationState = PanethCellMutationState := by
  constructor
  · rw [InitialiseDaughterCell_cell]; rfl
  · rw [InitialiseDaughterCell_cell]
    simp [SetTargetProportion, Double.lt_irrefl]

/-- C2: whatever the proliferative type of the owning cell before the call,
the target proportion and the draw, after `InitialiseDaughterCell` the
proliferative type of the cell is Transit. -/
theorem C2_InitialiseDaughterCell_proliferative_type (w : State) :
    (InitialiseDaughterCell setup w).cell.mCellProliferativeType =
      TransitCellProliferativeType := by
  rw [InitialiseDaughterCell_cell]

end InitialiseDaughterCell

/-! ## Cloning -/

section CreateCellCycleModel

open StochasticTargetProportionBasedCellCycleModel

variable (base : AbstractSimpleCellCycleModel) (DOUBLE_UNSET : Double)

/-- C4: the model returned by `CreateCellCycleModel` has the birth time,
minimum gap duration, stem and transit G1 durations, S, G2 and M durations
and target proportion of the parent, field by field. -/
theorem C4_CreateCellCycleModel_copies
    (parent : StochasticTargetProportionBasedCellCycleModel) :
    let clone := CreateCellCycleModel base DOUBLE_UNSET parent
    clone.mBirthTime = parent.mBirthTime ∧
    clone.mMinimumGapDuration = parent.mMinimumGapDuration ∧
    clone.mStemCellG1Duration = parent.mStemCellG1Duration ∧
    clone.mTransitCellG1Duration = parent.mTransitCellG1Duration ∧
    clone.mSDuration = parent.mSDuration ∧
    clone.mG2Duration = parent.mG2Duration ∧
    clone.mMDuration = parent.mMDuration ∧
    clone.mTargetProportion = parent.mTargetProportion := by
  simp [CreateCellCycleModel, SetBirthTime, SetMinimumGapDuration, SetStemCellG1Duration,
    SetTransitCellG1Duration, SetSDuration, SetG2Duration, SetMDuration, SetTargetProportion]

/-- C5: the model returned by `CreateCellCycleModel` has its G1 duration and
its dimension in the state of a freshly constructed model, whatever the
parent holds in them: a parent whose G1 duration (and dimension) has been set
yields the same clone as before, so the value of the parent is neither copied
nor used. -/
theorem C5_CreateCellCycleModel_leaves_g1_and_dimension_unset
    (parent : StochasticTargetProportionBasedCellCycleModel) (g1 : Double) (dim : Option Nat) :
    (CreateCellCycleModel base DOUBLE_UNSET parent).mG1Duration =
      (StochasticTargetProportionBasedCellCycleModel.new base DOUBLE_UNSET).mG1Duration ∧
    (CreateCellCycleModel base DOUBLE_UNSET parent).mDimension =
      (StochasticTargetProportionBasedCellCycleModel.new base DOUBLE_UNSET).mDimension ∧
    CreateCellCycleModel base DOUBLE_UNSET { parent with mG1Duration := g1, mDimension := dim } =
      CreateCellCycleModel base DOUBLE_UNSET parent := by
  simp [CreateCellCycleModel, SetBirthTime, SetMinimumGapDuration, SetStemCellG1Duration,
    SetTransitCellG1Duration, SetSDuration, SetG2Duration, SetMDuration, SetTargetProportion,
    StochasticTargetProportionBasedCellCycleModel.new]

end CreateCellCycleModel

/-! ## G1 duration: the unrecognised type -/

section SetG1DurationAbort

open CellProliferativeType

theorem SetG1Duration_other (w : State)
    (hs : w.cell.mCellProliferativeType ≠ StemCellProliferativeType)
    (ht : w.cell.mCellProliferativeType ≠ TransitCellProliferativeType)
    (hd : w.cell.mCellProliferativeType ≠ DifferentiatedCellProliferativeType) :
    SetG1Duration w = NEVER_REACHED w := by
  simp [SetG1Duration, Cell.GetCellProliferativeType, CellProliferativeType.IsType, hs, ht, hd]

theorem SetG1Duration_recognised (w : State)
    (h : w.cell.mCellProliferativeType = StemCellProliferativeType ∨
      w.cell.mCellProliferativeType = TransitCellProliferativeType ∨
      w.cell.mCellProliferativeType = DifferentiatedCellProliferativeType) :
    ∃ w', SetG1Duration w = Except.ok w' := by
  rcases h with h | h | h <;>
    simp [SetG1Duration, Cell.GetCellProliferativeType, CellProliferativeType.IsType, h,
      RandomNumberGenerator.ranf]

/-- C7: `SetG1Duration` aborts if and only if the proliferative type of the
owning cell is none of Stem, Transit and Differentiated; the state at the
abort is the state before the call, so no G1 duration has been assigned; and
for each of the three recognised types the call returns. -/
theorem C7_SetG1Duration_aborts_iff_unrecognised (w : State) :
    ((∃ a, SetG1Duration w = Except.error a) ↔
      (w.cell.mCellProliferativeType ≠ StemCellProliferativeType ∧
        w.cell.mCellProliferativeType ≠ TransitCellProliferativeType ∧
        w.cell.mCellProliferativeType ≠ DifferentiatedCellProliferativeType)) ∧
    (∀ a, SetG1Duration w = Except.error a →
      a.state = w ∧ a.state.model.mG1Duration = w.model.mG1Duration) ∧
    ((w.cell.mCellProliferativeType = StemCellProliferativeType ∨
        w.cell.mCellProliferativeType = TransitCellProliferativeType ∨
        w.cell.mCellProliferativeType = DifferentiatedCellProliferativeType) →
      ∃ w', SetG1Duration w = Except.ok w') := by
  have key : ∀ a, SetG1Duration w = Except.error a →
      (w.cell.mCellProliferativeType ≠ StemCellProliferativeType ∧
        w.cell.mCellProliferativeType ≠ TransitCellProliferativeType ∧
        w.cell.mCellProliferativeType ≠ DifferentiatedCellProliferativeType) := by
    intro a ha
    by_contra hne
    have hrec : w.cell.mCellProliferativeType = StemCellProliferativeType ∨
        w.cell.mCellProliferativeType = TransitCellProliferativeType ∨
        w.cell.mCellProliferativeType = DifferentiatedCellProliferativeType := by
      by_cases h1 : w.cell.mCellProliferativeType = StemCellProliferativeType
      · exact Or.inl h1
      by_cases h2 : w.cell.mCellProliferativeType = TransitCellProliferativeType
      · exact Or.inr (Or.inl h2)
      by_cases h3 : w.cell.mCellProliferativeType = DifferentiatedCellProliferativeType
      · exact Or.inr (Or.inr h3)
      exact absurd ⟨h1, h2, h3⟩ hne
    obtain ⟨w', hw'⟩ := SetG1Duration_recognised w hrec
    rw [hw'] at ha
    cases ha
  refine ⟨⟨fun ⟨a, ha⟩ => key a ha, fun ⟨hs, ht, hd⟩ => ?_⟩, ?_, SetG1Duration_recognised w⟩
  · exact ⟨_, SetG1Duration_other w hs ht hd⟩
  · intro a ha
    obtain ⟨hs, ht, hd⟩ := key a ha
    rw [SetG1Duration_other w hs ht hd] at ha
    simp only [NEVER_REACHED, Except.error.injEq] at ha
    subst ha
    exact ⟨rfl, rfl⟩

/-- C7, at a cell of a fourth proliferative type whose model already holds
the G1 duration 3.0: the call aborts and the state of the abort still holds
3.0; at a Stem cell the call returns. -/
theorem C7_SetG1Duration_aborts_iff_unrecognised_witness :
    (∃ a, SetG1Duration
        { model := sampleModel d3 none d0_3, cell := sampleCell (Other 0),
          rng := streamOf [d0_1] } = Except.error a ∧
      a.state.model.mG1Duration = d3) ∧
    (∃ w', SetG1Duration
        { model := sampleModel d3 none d0_3, cell := sampleCell StemCellProliferativeType,
          rng := streamOf [d0_1] } = Except.ok w') := by
  constructor
  · obtain ⟨a, ha⟩ := (C7_SetG1Duration_aborts_iff_unrecognised
        { model := sampleModel d3 none d0_3, cell := sampleCell (Other 0),
          rng := streamOf [d0_1] }).1.mpr
        ⟨by simp [sampleCell], by simp [sampleCell], by simp [sampleCell]⟩
    exact ⟨a, ha, ((C7_SetG1Duration_aborts_iff_unrecognised _).2.1 a ha).2⟩
  · exact (C7_SetG1Duration_aborts_iff_unrecognised
        { model := sampleModel d3 none d0_3, cell := sampleCell StemCellProliferativeType,
          rng := streamOf [d0_1] }).2.2 (Or.inl rfl)

end SetG1DurationAbort

/-! ## Successive daughters on a shared random source -/

section Daughters

open CellProliferativeType CellMutationState

variable (setup : AbstractSimpleCellCycleModel → AbstractSimpleCellCycleModel)

/-- The mutation state decided by the draw `r` against the target proportion
`p`, as in source lines 142-153. -/
theorem fate_eq (w : State) :
    (InitialiseDaughterCell setup w).cell.mMutationState =
      if Double.lt (w.rng.seq w.rng.pos) w.model.mTargetProportion then
        WildTypeCellMutationState
      else PanethCellMutationState := by
  rw [InitialiseDaughterCell_cell]

theorem initialiseDaughters_rng
    (ds : List (StochasticTargetProportionBasedCellCycleModel × Cell)) :
    ∀ g : RandomNumberGenerator,
      (initialiseDaughters setup ds g).2 = { seq := g.seq, pos := g.pos + ds.length } := by
  induction ds with
  | nil => intro g; rfl
  | cons d rest ih =>
    intro g
    obtain ⟨m, c⟩ := d
    simp only [initialiseDaughters, ih, InitialiseDaughterCell_rng, List.length_cons]
    congr 1
    omega

theorem initialiseDaughters_fates
    (ds : List (StochasticTargetProportionBasedCellCycleModel × Cell)) :
    ∀ (g : RandomNumberGenerator) (n : Nat),
      (initialiseDaughters setup ds g).1.map (fun d => d.2.mMutationState) =
        (ds.enumFrom n).map (fun kd =>
          if Double.lt (g.seq (g.pos + (kd.1 - n))) kd.2.1.mTargetProportion then
            WildTypeCellMutationState
          else PanethCellMutationState) := by
  induction ds with
  | nil => intro g n; rfl
  | cons d rest ih =>
    intro g n
    obtain ⟨m, c⟩ := d
    simp only [initialiseDaughters, List.map_cons, List.enumFrom_cons, fate_eq,
      Nat.sub_self, Nat.add_zero, InitialiseDaughterCell_rng]
    congr 1
    rw [ih _ (n + 1)]
    apply List.map_congr_left
    intro kd hkd
    have hle : n + 1 ≤ kd.1 := by
      have := List.le_fst_of_mem_enumFrom hkd
      exact this
    have : g.pos + 1 + (kd.1 - (n + 1)) = g.pos + (kd.1 - n) := by omega
    simp only [this]

theorem d0_1_lt_d0_3 : Double.lt d0_1 d0_3 = true := by decide!
theorem d0_5_lt_d0_3 : Double.lt d0_5 d0_3 = false := by decide!
theorem d0_9_lt_d0_3 : Double.lt d0_9 d0_3 = false := by decide!

/-- C8: `n` daughters initialised in succession on a shared random source
consume exactly `n` draws, in order (the source ends `n` positions further,
its stream unchanged), and the `k`-th daughter is WildType exactly when the
`k`-th draw is below the target proportion of its model, PanethCellMutation
otherwise; with target proportion 0.3 and the stream 0.1, 0.5, 0.9 three
daughters are WildType, PanethCellMutation, PanethCellMutation. -/
theorem C8_initialiseDaughters_draws_in_order
    (ds : List (StochasticTargetProportionBasedCellCycleModel × Cell))
    (g : RandomNumberGenerator) :
    (initialiseDaughters setup ds g).2 = { seq := g.seq, pos := g.pos + ds.length } ∧
    (initialiseDaughters setup ds g).1.map (fun d => d.2.mMutationState) =
      ds.enum.map (fun kd =>
        if Double.lt (g.seq (g.pos + kd.1)) kd.2.1.mTargetProportion then
          WildTypeCellMutationState
        else PanethCellMutationState) ∧
    (initialiseDaughters setup
        [(sampleModel d3 none d0_3, sampleCell StemCellProliferativeType),
          (sampleModel d3 none d0_3, sampleCell TransitCellProliferativeType),
          (sampleModel d3 none d0_3, sampleCell DifferentiatedCellProliferativeType)]
        (streamOf [d0_1, d0_5, d0_9])).1.map (fun d => d.2.mMutationState) =
      [WildTypeCellMutationState, PanethCellMutationState, PanethCellMutationState] := by
  refine ⟨initialiseDaughters_rng setup ds g, ?_, ?_⟩
  · simpa [List.enum] using initialiseDaughters_fates setup ds g 0
  · rw [initialiseDaughters_fates setup _ _ 0]
    simp [streamOf, sampleModel, d0_1_lt_d0_3, d0_5_lt_d0_3, d0_9_lt_d0_3]

/-- C9, at target proportion 0.3 and the draw 0.1: the draw is below the
target proportion and the daughter is made WildType, not PanethCellMutation. -/
theorem C9_InitialiseDaughterCell_below_target_is_WildType :
    Double.lt d0_1 d0_3 = true ∧
    (InitialiseDaughterCell id
        { model := sampleModel d3 none d0_3, cell := sampleCell StemCellProliferativeType,
          rng := streamOf [d0_1] }).cell.mMutationState = WildTypeCellMutationState ∧
    (InitialiseDaughterCell id
        { model := sampleModel d3 none d0_3, cell := sampleCell StemCellProliferativeType,
          rng := streamOf [d0_1] }).cell.mMutationState ≠ PanethCellMutationState := by
  have h : (InitialiseDaughterCell id
        { model := sampleModel d3 none d0_3, cell := sampleCell StemCellProliferativeType,
          rng := streamOf [d0_1] }).cell.mMutationState = WildTypeCellMutationState := by
    rw [InitialiseDaughterCell_cell]
    simp [streamOf, sampleModel, d0_1_lt_d0_3]
  refine ⟨d0_1_lt_d0_3, h, ?_⟩
  rw [h]
  decide

end Daughters

/-! ## Parameter reporting -/

section Output

variable (format : Double → String) (baseOutput : AbstractSimpleCellCycleModel → String)

/-- C10, as the claim states it, fails: for the target proportion 0.42 written
as `0.42` (and a base routine that appends nothing) the text appended is not
the tag alone at the start of the line; three tab characters come first. -/
theorem C10_OutputCellCycleModelParameters_not_bare_tag :
    OutputCellCycleModelParameters (fun _ => "0.42") (fun _ => "")
        (sampleModel d3 none d0_42) "" ≠
      "" ++ ("<TargetProportion>" ++ "0.42" ++ "</TargetProportion>\n") ++ "" := by
  decide

/-- C10, amended: what `OutputCellCycleModelParameters` appends to the stream
is three tab characters, `<TargetProportion>`, the text of the target
proportion, `</TargetProportion>` and a newline, followed by exactly what the
base routine appends; when the text of the value is `0.42` the line is
three tabs and `<TargetProportion>0.42</TargetProportion>`. -/
theorem C10_OutputCellCycleModelParameters_line
    (self : StochasticTargetProportionBasedCellCycleModel) (rParamsFile : OutStream) :
    OutputCellCycleModelParameters format baseOutput self rParamsFile =
      rParamsFile ++
        ("\t\t\t<TargetProportion>" ++ format self.mTargetProportion ++ "</TargetProportion>\n") ++
        baseOutput self.toAbstractSimpleCellCycleModel ∧
    (format self.mTargetProportion = "0.42" →
      OutputCellCycleModelParameters format baseOutput self rParamsFile =
        rParamsFile ++ "\t\t\t<TargetProportion>0.42</TargetProportion>\n" ++
          baseOutput self.toAbstractSimpleCellCycleModel) := by
  have h : OutputCellCycleModelParameters format baseOutput self rParamsFile =
      rParamsFile ++
        ("\t\t\t<TargetProportion>" ++ format self.mTargetProportion ++ "</TargetProportion>\n") ++
        baseOutput self.toAbstractSimpleCellCycleModel := by
    simp only [OutputCellCycleModelParameters, String.append_assoc]
  refine ⟨h, fun h42 => ?_⟩
  rw [h, h42]
  rfl

/-- C10, amended, at the target proportion 0.42 written as `0.42`, on a stream
that already holds a line and with a base routine that appends a line. -/
theorem C10_OutputCellCycleModelParameters_line_witness :
    OutputCellCycleModelParameters (fun _ => "0.42") (fun _ => "<base/>\n")
        (sampleModel d3 none d0_42) "<first/>\n" =
      "<first/>\n" ++ "\t\t\t<TargetProportion>0.42</TargetProportion>\n" ++ "<base/>\n" :=
  (C10_OutputCellCycleModelParameters_line (fun _ => "0.42") (fun _ => "<base/>\n")
    (sampleModel d3 none d0_42) "<first/>\n").2 rfl

end Output

/-! ## Rounding -/

section Rounding

theorem excessBits_spec : ∀ fuel a : Nat, a ≤ fuel →
    a < 2 ^ (53 + excessBits fuel a) ∧
      (excessBits fuel a = 0 ∨ 2 ^ (52 + excessBits fuel a) ≤ a) := by
  intro fuel
  induction fuel with
  | zero =>
    intro a h
    have h0 : a = 0 := by omega
    subst h0
    simp [excessBits]
  | succ f ih =>
    intro a h
    unfold excessBits
    split_ifs with hlt
    · exact ⟨by simpa using hlt, Or.inl rfl⟩
    · have h53 : 2 ^ 53 ≤ a := Nat.le_of_not_lt hlt
      have hpos : 0 < a := lt_of_lt_of_le (by norm_num) h53
      have hhalf : a / 2 ≤ f := by omega
      obtain ⟨h3, h4⟩ := ih (a / 2) hhalf
      have e1 : 2 ^ (53 + (excessBits f (a / 2) + 1)) = 2 * 2 ^ (53 + excessBits f (a / 2)) := by
        rw [← Nat.add_assoc, Nat.pow_succ, Nat.mul_comm]
      have e2 : 2 ^ (52 + (excessBits f (a / 2) + 1)) = 2 * 2 ^ (52 + excessBits f (a / 2)) := by
        rw [← Nat.add_assoc, Nat.pow_succ, Nat.mul_comm]
      refine ⟨by rw [e1]; omega, Or.inr ?_⟩
      rcases h4 with h0 | h5
      · rw [h0]; exact h53
      · rw [e2]; omega

theorem excessBits_mono {a b : Nat} (h : a ≤ b) : excessBits a a ≤ excessBits b b := by
  by_contra hlt
  have hlt : excessBits b b < excessBits a a := Nat.lt_of_not_le hlt
  obtain ⟨_, ha⟩ := excessBits_spec a a le_rfl
  obtain ⟨hb, _⟩ := excessBits_spec b b le_rfl
  rcases ha with ha | ha
  · omega
  · have hp : 2 ^ (53 + excessBits b b) ≤ 2 ^ (52 + excessBits a a) :=
      Nat.pow_le_pow_right (by norm_num) (by omega)
    omega

theorem roundAt_ge (k a : Nat) : a / 2 ^ k * 2 ^ k ≤ roundAt k a := by
  unfold roundAt
  simp only
  split_ifs <;> first | exact le_rfl | exact Nat.mul_le_mul_right _ (Nat.le_succ _)

theorem roundAt_le (k a : Nat) : roundAt k a ≤ (a / 2 ^ k + 1) * 2 ^ k := by
  unfold roundAt
  simp only
  split_ifs <;> first | exact le_rfl | exact Nat.mul_le_mul_right _ (Nat.le_succ _)

theorem roundAt_zero (a : Nat) : roundAt 0 a = a := by
  simp [roundAt, Nat.mod_one]

theorem roundAt_mono (k : Nat) {a b : Nat} (h : a ≤ b) : roundAt k a ≤ roundAt k b := by
  have hP : 0 < 2 ^ k := Nat.pow_pos (by norm_num)
  have hq : a / 2 ^ k ≤ b / 2 ^ k := Nat.div_le_div_right h
  rcases Nat.lt_or_eq_of_le hq with hq | hq
  · calc roundAt k a ≤ (a / 2 ^ k + 1) * 2 ^ k := roundAt_le k a
      _ ≤ b / 2 ^ k * 2 ^ k := Nat.mul_le_mul_right _ hq
      _ ≤ roundAt k b := roundAt_ge k b
  · have ha := Nat.div_add_mod a (2 ^ k)
    have hb := Nat.div_add_mod b (2 ^ k)
    have hra := Nat.mod_lt a hP
    have hrb := Nat.mod_lt b hP
    unfold roundAt
    simp only
    rw [← hq]
    rw [← hq] at hb
    generalize a / 2 ^ k = q at *
    generalize a % 2 ^ k = ra at *
    generalize b % 2 ^ k = rb at *
    generalize 2 ^ k = P at *
    have hmul : (q + 1) * P = q * P + P := Nat.succ_mul q P
    have hcomm : P * q = q * P := Nat.mul_comm P q
    rw [hcomm] at ha hb
    split_ifs <;> (try rw [hmul]) <;> omega

theorem roundNat_mono {a b : Nat} (h : a ≤ b) : roundNat a ≤ roundNat b := by
  unfold roundNat
  rcases Nat.lt_or_eq_of_le (excessBits_mono h) with hk | hk
  · obtain ⟨ha, _⟩ := excessBits_spec a a le_rfl
    obtain ⟨_, hb⟩ := excessBits_spec b b le_rfl
    have hb : 2 ^ (52 + excessBits b b) ≤ b := by
      rcases hb with hb | hb
      · omega
      · exact hb
    have hqa : a / 2 ^ excessBits a a < 2 ^ 53 := by
      apply Nat.div_lt_of_lt_mul
      rw [← Nat.pow_add, Nat.add_comm]
      exact ha
    have hqb : 2 ^ 52 ≤ b / 2 ^ excessBits b b := by
      rw [Nat.le_div_iff_mul_le (Nat.pow_pos (by norm_num)), ← Nat.pow_add]
      exact hb
    calc roundAt (excessBits a a) a
        ≤ (a / 2 ^ excessBits a a + 1) * 2 ^ excessBits a a := roundAt_le _ _
      _ ≤ 2 ^ 53 * 2 ^ excessBits a a := Nat.mul_le_mul_right _ hqa
      _ = 2 ^ (53 + excessBits a a) := (Nat.pow_add 2 53 _).symm
      _ ≤ 2 ^ (52 + excessBits b b) := Nat.pow_le_pow_right (by norm_num) (by omega)
      _ = 2 ^ 52 * 2 ^ excessBits b b := Nat.pow_add 2 52 _
      _ ≤ b / 2 ^ excessBits b b * 2 ^ excessBits b b := Nat.mul_le_mul_right _ hqb
      _ ≤ roundAt (excessBits b b) b := roundAt_ge _ _
  · rw [hk]
    exact roundAt_mono _ h

theorem Double.ofInt_mono {x y : Int} (h : x ≤ y) :
    Double.le (Double.ofInt x) (Double.ofInt y) = true := by
  unfold Double.ofInt
  simp only
  by_cases hx : x < 0 <;> by_cases hy : y < 0
  · have hr : roundNat y.natAbs ≤ roundNat x.natAbs := roundNat_mono (by omega)
    simp only [hx, hy, if_true]
    split_ifs <;> simp [Double.le] <;> omega
  · simp only [hx, hy, if_true, if_false]
    split_ifs <;> simp [Double.le]
    omega
  · omega
  · have hr : roundNat x.natAbs ≤ roundNat y.natAbs := roundNat_mono (by omega)
    simp only [hx, hy, if_false]
    split_ifs <;> simp [Double.le] <;> omega

theorem Double.natAbs_le_of_isValid {n : Int} (h : Double.IsValid (Double.finite n)) :
    n.natAbs ≤ maxFinite := by
  unfold Double.IsValid Double.ofInt at h
  simp only at h
  split_ifs at h with h1 h2 h2
  · simp only [Double.finite.injEq] at h
    omega
  · simp only [Double.finite.injEq] at h
    omega

theorem Double.le_DBL_MAX {d : Double} (hv : d.IsValid) (hf : d.isFinite = true) :
    Double.le d DBL_MAX = true := by
  cases d with
  | finite n =>
    have := Double.natAbs_le_of_isValid hv
    simp only [Double.le, DBL_MAX, decide_eq_true_eq]
    generalize maxFinite = M at *
    omega
  | posInf => simp [Double.isFinite] at hf
  | negInf => simp [Double.isFinite] at hf
  | nan => simp [Double.isFinite] at hf

theorem Double.ofInt_zero : Double.ofInt 0 = Double.zero := by decide!

theorem Double.ofInt_two :
    Double.ofInt (2 * (Double.unitsPerOne : Int)) = Double.two := by decide!

/-- The double `2 * u` of a draw `0 <= u < 1` is a finite value between `0`
and `2`. -/
theorem Double.twice_range {u : Double} (h0 : Double.le Double.zero u = true)
    (h1 : Double.lt u Double.one = true) :
    ∃ t : Int, Double.twice u = Double.finite t ∧ 0 ≤ t ∧ t ≤ 2 * (Double.unitsPerOne : Int) := by
  cases u with
  | finite n =>
    simp only [Double.le, Double.zero, decide_eq_true_eq] at h0
    simp only [Double.lt, Double.one, decide_eq_true_eq] at h1
    have lo := Double.ofInt_mono (show (0 : Int) ≤ 2 * n by omega)
    have hi := Double.ofInt_mono (show 2 * n ≤ 2 * (Double.unitsPerOne : Int) by omega)
    rw [Double.ofInt_zero] at lo
    rw [Double.ofInt_two] at hi
    simp only [Double.twice]
    cases hr : Double.ofInt (2 * n) with
    | finite t =>
      rw [hr] at lo hi
      simp only [Double.le, Double.zero, Double.two, decide_eq_true_eq] at lo hi
      exact ⟨t, rfl, lo, hi⟩
    | posInf => rw [hr] at hi; simp [Double.le, Double.two] at hi
    | negInf => rw [hr] at lo; simp [Double.le, Double.zero] at lo
    | nan => rw [hr] at lo; simp [Double.le, Double.zero] at lo
  | posInf => simp [Double.lt, Double.one] at h1
  | negInf => simp [Double.le, Double.zero] at h0
  | nan => simp [Double.le, Double.zero] at h0

/-- Adding a finite `0 <= t <= 2` to a genuine, non-NaN double `s` yields a
value in the closed interval from `s` to the double sum `s + 2`. -/
theorem Double.add_range {s : Double} (hv : s.IsValid) (hn : s ≠ Double.nan) {t : Int}
    (h0 : 0 ≤ t) (h2 : t ≤ 2 * (Double.unitsPerOne : Int)) :
    Double.le s (Double.add s (Double.finite t)) = true ∧
      Double.le (Double.add s (Double.finite t)) (Double.add s Double.two) = true := by
  cases s with
  | finite a =>
    have hva : Double.ofInt a = Double.finite a := hv
    have lo := Double.ofInt_mono (show a ≤ a + t by omega)
    have hi := Double.ofInt_mono (show a + t ≤ a + 2 * (Double.unitsPerOne : Int) by omega)
    rw [hva] at lo
    exact ⟨lo, hi⟩
  | posInf => simp [Double.add, Double.le, Double.two]
  | negInf => simp [Double.add, Double.le, Double.two]
  | nan => exact absurd rfl hn

end Rounding


/-! ## G1 duration: the recognised types -/

section SetG1Duration

open CellProliferativeType StochasticTargetProportionBasedCellCycleModel

theorem SetG1Duration_stem (w : State)
    (h : w.cell.mCellProliferativeType = StemCellProliferativeType) :
    SetG1Duration w = Except.ok { w with
      model := { w.model with
        mG1Duration := Double.add w.model.mStemCellG1Duration
          (Double.twice (w.rng.seq w.rng.pos)) },
      rng := { w.rng with pos := w.rng.pos + 1 } } := by
  simp [SetG1Duration, Cell.GetCellProliferativeType, CellProliferativeType.IsType, h,
    RandomNumberGenerator.ranf, GetStemCellG1Duration]

theorem SetG1Duration_transit (w : State)
    (h : w.cell.mCellProliferativeType = TransitCellProliferativeType) :
    SetG1Duration w = Except.ok { w with
      model := { w.model with
        mG1Duration := Double.add w.model.mTransitCellG1Duration
          (Double.twice (w.rng.seq w.rng.pos)) },
      rng := { w.rng with pos := w.rng.pos + 1 } } := by
  simp [SetG1Duration, Cell.GetCellProliferativeType, CellProliferativeType.IsType, h,
    RandomNumberGenerator.ranf, GetTransitCellG1Duration]

theorem SetG1Duration_differentiated (w : State)
    (h : w.cell.mCellProliferativeType = DifferentiatedCellProliferativeType) :
    SetG1Duration w = Except.ok { w with model := { w.model with mG1Duration := DBL_MAX } } := by
  simp [SetG1Duration, Cell.GetCellProliferativeType, CellProliferativeType.IsType, h]

/-- C3, as the claim states it, fails: the G1 duration can be the upper end
`stemG1Duration + 2` itself.  With the stem constant 1.0 and the draw
`1 - 2^-53` (a double in `[0, 1)`) the sum `1 + 2 * u` is halfway between two
doubles and rounds to 3.0; with the stem constant `2^53` and the draw 0.75 the
sum rounds to `2^53 + 2`.  In both cases the result is not below
`stemG1Duration + 2`. -/
theorem C3_SetG1Duration_reaches_upper_end :
    (Double.IsValid dPredOne ∧ Double.le Double.zero dPredOne = true ∧
      Double.lt dPredOne Double.one = true ∧
      g1Of (SetG1Duration
        { model := sampleModel d3 none d0_3, cell := sampleCell StemCellProliferativeType,
          rng := streamOf [dPredOne] }) = some d3 ∧
      Double.add Double.one Double.two = d3 ∧
      Double.lt d3 (Double.add Double.one Double.two) = false) ∧
    (Double.IsValid d0_75 ∧ Double.le Double.zero d0_75 = true ∧
      Double.lt d0_75 Double.one = true ∧ Double.IsValid dTwoPow53 ∧
      g1Of (SetG1Duration
        { model := (sampleModel d3 none d0_3).SetStemCellG1Duration dTwoPow53,
          cell := sampleCell StemCellProliferativeType,
          rng := streamOf [d0_75] }) = some (Double.add dTwoPow53 Double.two) ∧
      Double.lt (Double.add dTwoPow53 Double.two) (Double.add dTwoPow53 Double.two) = false) := by
  decide!

/-- C3, amended: for every draw `u` with `0 <= u < 1`, `SetG1Duration` on a
Stem cell sets the G1 duration to the double sum `stemG1Duration + 2 * u`,
which lies in the closed interval from `stemG1Duration` to the double sum
`stemG1Duration + 2` (for a stem constant that is a double other than NaN),
and on a Transit cell to `transitG1Duration + 2 * u`, in the closed interval
from `transitG1Duration` to `transitG1Duration + 2`; the result for a Stem
cell does not depend on the transit constant, nor the result for a Transit
cell on the stem constant. -/
theorem C3_SetG1Duration_closed_range (w : State)
    (h0 : Double.le Double.zero (w.rng.seq w.rng.pos) = true)
    (h1 : Double.lt (w.rng.seq w.rng.pos) Double.one = true) :
    (w.cell.mCellProliferativeType = StemCellProliferativeType →
      g1Of (SetG1Duration w) =
        some (Double.add w.model.mStemCellG1Duration (Double.twice (w.rng.seq w.rng.pos))) ∧
      (w.model.mStemCellG1Duration.IsValid → w.model.mStemCellG1Duration ≠ Double.nan →
        Double.le w.model.mStemCellG1Duration
          (Double.add w.model.mStemCellG1Duration (Double.twice (w.rng.seq w.rng.pos))) = true ∧
        Double.le
          (Double.add w.model.mStemCellG1Duration (Double.twice (w.rng.seq w.rng.pos)))
          (Double.add w.model.mStemCellG1Duration Double.two) = true) ∧
      ∀ x, g1Of (SetG1Duration { w with model := w.model.SetTransitCellG1Duration x }) =
        g1Of (SetG1Duration w)) ∧
    (w.cell.mCellProliferativeType = TransitCellProliferativeType →
      g1Of (SetG1Duration w) =
        some (Double.add w.model.mTransitCellG1Duration (Double.twice (w.rng.seq w.rng.pos))) ∧
      (w.model.mTransitCellG1Duration.IsValid → w.model.mTransitCellG1Duration ≠ Double.nan →
        Double.le w.model.mTransitCellG1Duration
          (Double.add w.model.mTransitCellG1Duration
            (Double.twice (w.rng.seq w.rng.pos))) = true ∧
        Double.le
          (Double.add w.model.mTransitCellG1Duration (Double.twice (w.rng.seq w.rng.pos)))
          (Double.add w.model.mTransitCellG1Duration Double.two) = true) ∧
      ∀ x, g1Of (SetG1Duration { w with model := w.model.SetStemCellG1Duration x }) =
        g1Of (SetG1Duration w)) := by
  obtain ⟨t, ht, ht0, ht2⟩ := Double.twice_range h0 h1
  constructor
  · intro hs
    refine ⟨by rw [SetG1Duration_stem w hs]; rfl, fun hv hn => ?_, fun x => ?_⟩
    · rw [ht]; exact Double.add_range hv hn ht0 ht2
    · rw [SetG1Duration_stem w hs, SetG1Duration_stem _ (by exact hs)]; rfl
  · intro hs
    refine ⟨by rw [SetG1Duration_transit w hs]; rfl, fun hv hn => ?_, fun x => ?_⟩
    · rw [ht]; exact Double.add_range hv hn ht0 ht2
    · rw [SetG1Duration_transit w hs, SetG1Duration_transit _ (by exact hs)]; rfl

theorem sample_facts :
    Double.le Double.zero d0_1 = true ∧ Double.lt d0_1 Double.one = true ∧
      Double.IsValid Double.one ∧ Double.IsValid Double.two ∧ Double.IsValid d3 := by
  decide!

/-- C3, amended, at the draw 0.1: a Stem cell with stem constant 1.0 and a
Transit cell with transit constant 2.0. -/
theorem C3_SetG1Duration_closed_range_witness :
    (g1Of (SetG1Duration
        { model := sampleModel d3 none d0_3, cell := sampleCell StemCellProliferativeType,
          rng := streamOf [d0_1] }) = some (Double.add Double.one (Double.twice d0_1)) ∧
      Double.le Double.one (Double.add Double.one (Double.twice d0_1)) = true ∧
      Double.le (Double.add Double.one (Double.twice d0_1))
        (Double.add Double.one Double.two) = true) ∧
    (g1Of (SetG1Duration
        { model := sampleModel d3 none d0_3, cell := sampleCell TransitCellProliferativeType,
          rng := streamOf [d0_1] }) = some (Double.add Double.two (Double.twice d0_1)) ∧
      Double.le Double.two (Double.add Double.two (Double.twice d0_1)) = true ∧
      Double.le (Double.add Double.two (Double.twice d0_1))
        (Double.add Double.two Double.two) = true) := by
  have hS := (C3_SetG1Duration_closed_range
    { model := sampleModel d3 none d0_3, cell := sampleCell StemCellProliferativeType,
      rng := streamOf [d0_1] } sample_facts.1 sample_facts.2.1).1 rfl
  have hT := (C3_SetG1Duration_closed_range
    { model := sampleModel d3 none d0_3, cell := sampleCell TransitCellProliferativeType,
      rng := streamOf [d0_1] } sample_facts.1 sample_facts.2.1).2 rfl
  exact ⟨⟨hS.1, hS.2.1 sample_facts.2.2.1 (by simp [sampleModel, Double.one])⟩,
    ⟨hT.1, hT.2.1 sample_facts.2.2.2.1 (by simp [sampleModel, Double.two])⟩⟩

/-- C6, as the claim states it, fails: for a Differentiated cell the G1
duration is set to `DBL_MAX`, which is not the positive infinity but a finite
double, so there is a finite duration (`DBL_MAX` itself) that it does not
exceed. -/
theorem C6_SetG1Duration_differentiated_is_finite :
    g1Of (SetG1Duration
      { model := sampleModel d3 none d0_3,
        cell := sampleCell DifferentiatedCellProliferativeType,
        rng := streamOf [d0_1] }) = some DBL_MAX ∧
    DBL_MAX ≠ Double.posInf ∧ DBL_MAX.IsValid ∧ DBL_MAX.isFinite = true ∧
    Double.lt DBL_MAX DBL_MAX = false := by
  decide!

/-- C6, amended: for every model whose owning cell is Differentiated,
`SetG1Duration` sets the G1 duration to `DBL_MAX`, the largest finite double:
every finite double is at most it, and every finite double other than
`DBL_MAX` itself is strictly below it. -/
theorem C6_SetG1Duration_differentiated_DBL_MAX (w : State)
    (h : w.cell.mCellProliferativeType = DifferentiatedCellProliferativeType) :
    SetG1Duration w = Except.ok { w with model := { w.model with mG1Duration := DBL_MAX } } ∧
    g1Of (SetG1Duration w) = some DBL_MAX ∧
    ∀ d : Double, d.IsValid → d.isFinite = true →
      Double.le d DBL_MAX = true ∧ (d ≠ DBL_MAX → Double.lt d DBL_MAX = true) := by
  refine ⟨SetG1Duration_differentiated w h, by rw [SetG1Duration_differentiated w h]; rfl, ?_⟩
  intro d hv hf
  refine ⟨Double.le_DBL_MAX hv hf, fun hne => ?_⟩
  have hle := Double.le_DBL_MAX hv hf
  cases d with
  | finite n =>
    simp only [Double.le, DBL_MAX, decide_eq_true_eq] at hle
    simp only [Double.lt, DBL_MAX, decide_eq_true_eq]
    have hne' : n ≠ (maxFinite : Int) := fun e => hne (by rw [e]; rfl)
    omega
  | posInf => simp [Double.isFinite] at hf
  | negInf => simp [Double.isFinite] at hf
  | nan => simp [Double.isFinite] at hf

/-- C6, amended, at a Differentiated cell and the finite duration 3.0. -/
theorem C6_SetG1Duration_differentiated_DBL_MAX_witness :
    g1Of (SetG1Duration
      { model := sampleModel d3 none d0_3,
        cell := sampleCell DifferentiatedCellProliferativeType,
        rng := streamOf [d0_1] }) = some DBL_MAX ∧
    Double.le d3 DBL_MAX = true ∧ Double.lt d3 DBL_MAX = true := by
  have h := C6_SetG1Duration_differentiated_DBL_MAX
    { model := sampleModel d3 none d0_3,
      cell := sampleCell DifferentiatedCellProliferativeType,
      rng := streamOf [d0_1] } rfl
  have hd := h.2.2 d3 sample_facts.2.2.2.2 rfl
  exact ⟨h.2.1, hd.1, hd.2 (by decide!)⟩

end SetG1Duration

/-! ## Daughter initialisation at the extreme target proportions -/

section Extremes

open StochasticTargetProportionBasedCellCycleModel

variable (setup : AbstractSimpleCellCycleModel → AbstractSimpleCellCycleModel)

theorem Double.lt_zero_of_zero_le {r : Double} (h : Double.le Double.zero r = true) :
    Double.lt r Double.zero = false := by
  cases r with
  | finite n =>
    simp only [Double.le, Double.zero, decide_eq_true_eq] at h
    simp only [Double.lt, Double.zero, decide_eq_false_iff_not]
    omega
  | posInf => simp [Double.lt, Double.zero]
  | negInf => simp [Double.le, Double.zero] at h
  | nan => simp [Double.le, Double.zero] at h

/-- C11: for draws `r` and `r'` with `0 <= r < 1` and `0 <= r' < 1` (the next
values of two random sources), `InitialiseDaughterCell` with target
proportion 0 assigns PanethCellMutation and with target proportion 1 assigns
WildType; at either extreme the two draws give the same mutation state,
whatever the model and the cells were before. -/
theorem C11_InitialiseDaughterCell_extremes
    (m : StochasticTargetProportionBasedCellCycleModel) (c c' : Cell)
    (g g' : RandomNumberGenerator)
    (h0 : Double.le Double.zero (g.seq g.pos) = true)
    (h1 : Double.lt (g.seq g.pos) Double.one = true)
    (h0' : Double.le Double.zero (g'.seq g'.pos) = true)
    (h1' : Double.lt (g'.seq g'.pos) Double.one = true) :
    (InitialiseDaughterCell setup
        { model := m.SetTargetProportion Double.zero, cell := c, rng := g }).cell.mMutationState =
      PanethCellMutationState ∧
    (InitialiseDaughterCell setup
        { model := m.SetTargetProportion Double.one, cell := c, rng := g }).cell.mMutationState =
      WildTypeCellMutationState ∧
    (InitialiseDaughterCell setup
        { model := m.SetTargetProportion Double.zero, cell := c',
          rng := g' }).cell.mMutationState =
      (InitialiseDaughterCell setup
        { model := m.SetTargetProportion Double.zero, cell := c,
          rng := g }).cell.mMutationState ∧
    (InitialiseDaughterCell setup
        { model := m.SetTargetProportion Double.one, cell := c',
          rng := g' }).cell.mMutationState =
      (InitialiseDaughterCell setup
        { model := m.SetTargetProportion Double.one, cell := c,
          rng := g }).cell.mMutationState := by
  simp only [InitialiseDaughterCell_cell, SetTargetProportion,
    Double.lt_zero_of_zero_le h0, Double.lt_zero_of_zero_le h0', h1, h1']
  simp

theorem sample_draws :
    Double.le Double.zero d0_1 = true ∧ Double.lt d0_1 Double.one = true ∧
      Double.le Double.zero d0_9 = true ∧ Double.lt d0_9 Double.one = true := by
  decide!

/-- C11, at the draws 0.1 and 0.9: both are PanethCellMutation at target
proportion 0 and both WildType at target proportion 1. -/
theorem C11_InitialiseDaughterCell_extremes_witness :
    (InitialiseDaughterCell id
        { model := (sampleModel d3 none d0_3).SetTargetProportion Double.zero,
          cell := sampleCell StemCellProliferativeType,
          rng := streamOf [d0_1] }).cell.mMutationState = PanethCellMutationState ∧
    (InitialiseDaughterCell id
        { model := (sampleModel d3 none d0_3).SetTargetProportion Double.zero,
          cell := sampleCell DifferentiatedCellProliferativeType,
          rng := streamOf [d0_9] }).cell.mMutationState = PanethCellMutationState ∧
    (InitialiseDaughterCell id
        { model := (sampleModel d3 none d0_3).SetTargetProportion Double.one,
          cell := sampleCell StemCellProliferativeType,
          rng := streamOf [d0_1] }).cell.mMutationState = WildTypeCellMutationState ∧
    (InitialiseDaughterCell id
        { model := (sampleModel d3 none d0_3).SetTargetProportion Double.one,
          cell := sampleCell DifferentiatedCellProliferativeType,
          rng := streamOf [d0_9] }).cell.mMutationState = WildTypeCellMutationState := by
  have h := C11_InitialiseDaughterCell_extremes id (sampleModel d3 none d0_3)
    (sampleCell StemCellProliferativeType) (sampleCell DifferentiatedCellProliferativeType)
    (streamOf [d0_1]) (streamOf [d0_9])
    sample_draws.1 sample_draws.2.1 sample_draws.2.2.1 sample_draws.2.2.2
  exact ⟨h.1, h.2.2.1.trans h.1, h.2.1, h.2.2.2.trans h.2.1⟩

end Extremes

/-! ## Reporting before configuration -/

section OutputUnset

variable (format : Double → String) (baseOutput : AbstractSimpleCellCycleModel → String)

/-- C12, as the claim states it, fails: on a freshly constructed model, whose
target proportion is still the sentinel (here `DBL_MAX`, written
`1.79769e+308`), the routine appends the tag before the text of the base
routine (here none); what it appends is not the text of the base routine
alone. -/
theorem C12_OutputCellCycleModelParameters_unset_emits_tag :
    OutputCellCycleModelParameters (fun _ => "1.79769e+308") (fun _ => "")
        (StochasticTargetProportionBasedCellCycleModel.new
          (sampleModel d3 none d0_3).toAbstractSimpleCellCycleModel DBL_MAX) "" =
      "\t\t\t<TargetProportion>1.79769e+308</TargetProportion>\n" ∧
    OutputCellCycleModelParameters (fun _ => "1.79769e+308") (fun _ => "")
        (StochasticTargetProportionBasedCellCycleModel.new
          (sampleModel d3 none d0_3).toAbstractSimpleCellCycleModel DBL_MAX) "" ≠
      "" ++ (fun _ => "") (sampleModel d3 none d0_3).toAbstractSimpleCellCycleModel := by
  decide

/-- C12, amended: on a model whose target proportion has never been
configured, `OutputCellCycleModelParameters` appends the TargetProportion
field as on any other model, its value being the text of the sentinel
`DOUBLE_UNSET` the constructor stored: three tab characters,
`<TargetProportion>`, that text, `</TargetProportion>` and a newline, and
then what the base routine appends. -/
theorem C12_OutputCellCycleModelParameters_unset_line
    (base : AbstractSimpleCellCycleModel) (DOUBLE_UNSET : Double) (rParamsFile : OutStream) :
    OutputCellCycleModelParameters format baseOutput
        (StochasticTargetProportionBasedCellCycleModel.new base DOUBLE_UNSET) rParamsFile =
      rParamsFile ++
        ("\t\t\t<TargetProportion>" ++ format DOUBLE_UNSET ++ "</TargetProportion>\n") ++
        baseOutput base := by
  simp only [OutputCellCycleModelParameters, StochasticTargetProportionBasedCellCycleModel.new,
    String.append_assoc]

end OutputUnset

/-! ## The accessors of the target proportion -/

section Accessors

/-- C13: for every double `v` (no range is asked of it) `SetTargetProportion`
returns, and `GetTargetProportion` afterwards returns `v`; the setter leaves
every other member of the model, the cell and the random source as they
were, and the getter leaves the whole state as it was. -/
theorem C13_SetTargetProportion_GetTargetProportion (w : State) (v : Double) :
    (w.SetTargetProportion v).GetTargetProportion.1 = v ∧
    (w.SetTargetProportion v).model.toAbstractSimpleCellCycleModel =
      w.model.toAbstractSimpleCellCycleModel ∧
    (w.SetTargetProportion v).cell = w.cell ∧
    (w.SetTargetProportion v).rng = w.rng ∧
    w.GetTargetProportion.2 = w ∧
    (w.model.SetTargetProportion v).GetTargetProportion = v ∧
    (w.model.SetTargetProportion Double.nan).GetTargetProportion = Double.nan ∧
    (w.model.SetTargetProportion Double.negInf).GetTargetProportion = Double.negInf ∧
    (w.model.SetTargetProportion d3).GetTargetProportion = d3 :=
  ⟨rfl, rfl, rfl, rfl, rfl, rfl, rfl, rfl, rfl⟩

end Accessors

/-! ## What resolving the G1 duration leaves alone -/

section SetG1DurationFrame

/-- C14: for an owning cell of a recognised proliferative type,
`SetG1Duration` returns a state whose model differs from the model before in
`mG1Duration` at most (birth time, minimum gap duration, stem and transit G1
constants, S, G2 and M durations, dimension and target proportion are as
before) and whose cell has the proliferative type and the mutation state it
had. -/
theorem C14_SetG1Duration_frame (w : State)
    (h : w.cell.mCellProliferativeType = StemCellProliferativeType ∨
      w.cell.mCellProliferativeType = TransitCellProliferativeType ∨
      w.cell.mCellProliferativeType = DifferentiatedCellProliferativeType) :
    ∃ w', SetG1Duration w = Except.ok w' ∧
      { w'.model with mG1Duration := w.model.mG1Duration } = w.model ∧
      w'.model.mBirthTime = w.model.mBirthTime ∧
      w'.model.mMinimumGapDuration = w.model.mMinimumGapDuration ∧
      w'.model.mStemCellG1Duration = w.model.mStemCellG1Duration ∧
      w'.model.mTransitCellG1Duration = w.model.mTransitCellG1Duration ∧
      w'.model.mSDuration = w.model.mSDuration ∧
      w'.model.mG2Duration = w.model.mG2Duration ∧
      w'.model.mMDuration = w.model.mMDuration ∧
      w'.model.mTargetProportion = w.model.mTargetProportion ∧
      w'.cell.mCellProliferativeType = w.cell.mCellProliferativeType ∧
      w'.cell.mMutationState = w.cell.mMutationState := by
  rcases h with h | h | h
  · exact ⟨_, SetG1Duration_stem w h, rfl, rfl, rfl, rfl, rfl, rfl, rfl, rfl, rfl, rfl, rfl⟩
  · exact ⟨_, SetG1Duration_transit w h, rfl, rfl, rfl, rfl, rfl, rfl, rfl, rfl, rfl, rfl, rfl⟩
  · exact ⟨_, SetG1Duration_differentiated w h, rfl, rfl, rfl, rfl, rfl, rfl, rfl, rfl, rfl, rfl,
      rfl⟩

/-- C14, at a Transit cell in the Paneth state whose model holds the target
proportion 0.3: the call returns, and the target proportion and both tags are
what they were. -/
theorem C14_SetG1Duration_frame_witness :
    ∃ w', SetG1Duration
        { model := sampleModel d3 none d0_3,
          cell := { mCellProliferativeType := TransitCellProliferativeType,
                    mMutationState := PanethCellMutationState },
          rng := streamOf [d0_1] } = Except.ok w' ∧
      w'.model.mTargetProportion = d0_3 ∧
      w'.cell.mCellProliferativeType = TransitCellProliferativeType ∧
      w'.cell.mMutationState = PanethCellMutationState := by
  obtain ⟨w', hw, _, _, _, _, _, _, _, _, hp, ht, hm⟩ := C14_SetG1Duration_frame
    { model := sampleModel d3 none d0_3,
      cell := { mCellProliferativeType := TransitCellProliferativeType,
                mMutationState := PanethCellMutationState },
      rng := streamOf [d0_1] } (Or.inr (Or.inl rfl))
  exact ⟨w', hw, hp, ht, hm⟩

/-- C15: on a Stem or a Transit cell `SetG1Duration` consumes exactly one
draw (the random source ends one position further on the same stream), and on
a Differentiated cell it consumes none (the random source is as before, so
the next value it hands out is the one it would have handed out). -/
theorem C15_SetG1Duration_draws (w : State) :
    ((w.cell.mCellProliferativeType = StemCellProliferativeType ∨
        w.cell.mCellProliferativeType = TransitCellProliferativeType) →
      ∃ w', SetG1Duration w = Except.ok w' ∧
        w'.rng = { seq := w.rng.seq, pos := w.rng.pos + 1 }) ∧
    (w.cell.mCellProliferativeType = DifferentiatedCellProliferativeType →
      ∃ w', SetG1Duration w = Except.ok w' ∧ w'.rng = w.rng ∧
        w'.rng.ranf.1 = w.rng.ranf.1) := by
  constructor
  · rintro (h | h)
    · exact ⟨_, SetG1Duration_stem w h, rfl⟩
    · exact ⟨_, SetG1Duration_transit w h, rfl⟩
  · intro h
    exact ⟨_, SetG1Duration_differentiated w h, rfl, rfl⟩

/-- C15, on the stream 0.1, 0.5: after a Stem cell the next value is 0.5,
after a Differentiated cell it is still 0.1. -/
theorem C15_SetG1Duration_draws_witness :
    (∃ w', SetG1Duration
        { model := sampleModel d3 none d0_3, cell := sampleCell StemCellProliferativeType,
          rng := streamOf [d0_1, d0_5] } = Except.ok w' ∧ w'.rng.ranf.1 = d0_5) ∧
    (∃ w', SetG1Duration
        { model := sampleModel d3 none d0_3,
          cell := sampleCell DifferentiatedCellProliferativeType,
          rng := streamOf [d0_1, d0_5] } = Except.ok w' ∧ w'.rng.ranf.1 = d0_1) := by
  constructor
  · obtain ⟨w', hw, hr⟩ := (C15_SetG1Duration_draws
      { model := sampleModel d3 none d0_3, cell := sampleCell StemCellProliferativeType,
        rng := streamOf [d0_1, d0_5] }).1 (Or.inl rfl)
    exact ⟨w', hw, by rw [hr]; rfl⟩
  · obtain ⟨w', hw, _, hr⟩ := (C15_SetG1Duration_draws
      { model := sampleModel d3 none d0_3,
        cell := sampleCell DifferentiatedCellProliferativeType,
        rng := streamOf [d0_1, d0_5] }).2 rfl
    exact ⟨w', hw, by rw [hr]; rfl⟩

end SetG1DurationFrame

/-! ## Cloning a clone -/

section CloneTwice

open StochasticTargetProportionBasedCellCycleModel

/-- C16: the clone of a clone is the clone, field by field (even when the
two constructions start from different constructor states `base'` and
sentinels, the second clone is what cloning the original would give there),
and a call of the cloning routine hands the state on as it was: the parent
model, its cell and the random source, so no draw is consumed. -/
theorem C16_CreateCellCycleModel_idempotent
    (base base' : AbstractSimpleCellCycleModel) (DOUBLE_UNSET DOUBLE_UNSET' : Double)
    (w : State) :
    CreateCellCycleModel base DOUBLE_UNSET (CreateCellCycleModel base DOUBLE_UNSET w.model) =
      CreateCellCycleModel base DOUBLE_UNSET w.model ∧
    CreateCellCycleModel base' DOUBLE_UNSET' (CreateCellCycleModel base DOUBLE_UNSET w.model) =
      CreateCellCycleModel base' DOUBLE_UNSET' w.model ∧
    (w.CreateCellCycleModel base DOUBLE_UNSET).1 =
      CreateCellCycleModel base DOUBLE_UNSET w.model ∧
    (w.CreateCellCycleModel base DOUBLE_UNSET).2 = w ∧
    (w.CreateCellCycleModel base DOUBLE_UNSET).2.model = w.model ∧
    (w.CreateCellCycleModel base DOUBLE_UNSET).2.rng.pos = w.rng.pos := by
  refine ⟨?_, ?_, rfl, rfl, rfl, rfl⟩ <;>
    simp [CreateCellCycleModel, SetBirthTime, SetMinimumGapDuration, SetStemCellG1Duration,
      SetTransitCellG1Duration, SetSDuration, SetG2Duration, SetMDuration, SetTargetProportion,
      StochasticTargetProportionBasedCellCycleModel.new]

end CloneTwice

end Chaste
